import Mathlib

/-!
Verification of the sandboxed code-execution service.

The service accepts untrusted source text, runs it inside a fresh Docker
container and relays the console output either synchronously (one JSON
response) or as a live websocket stream.  The definitions below are a
shallow embedding of the Go source:

* `errorResponse`, `ResponseWriter` — cmd/api/main.go (JSON error envelope
  helper) together with net/http's implicit-200 write semantics, which the
  repository's own middleware wrapper (cmd/api/middleware.go) makes explicit.
* `TarWriter`, `packagePayload` — the payload packager: the exact
  archive/tar writer call sequence performed by both handler variants.
* `syncExecuteHandler` — the synchronous handler variant (decode → docker
  client → create → tar → copy → start → wait/timeout → logs → demux →
  respond), driven by an oracle of external-call outcomes and recording the
  trace of runtime-client calls.
* `streamRun`, `stepA`, `runSteps` — the streaming handler
  (cmd/api/execute.go): its prologue plus a small-step interleaving of the
  container-wait goroutine and the log-forwarding loop, over a websocket
  connection model that follows gorilla/websocket's write semantics
  (writes fail once a close frame has been sent or the peer is gone).
-/

/-! ## HTTP response writer and the errorResponse helper (cmd/api/main.go) -/

/-- One JSON document written to the response body: either the error
envelope produced by `errorResponse`, or the success payload of the
synchronous handler. -/
inductive BodyItem where
  | errorEnvelope (message : String)
  | successEnvelope (status : String) (output : String)
deriving DecidableEq

/-- net/http response-writer state: the status code actually sent (if any)
and the sequence of JSON documents written to the body. -/
structure ResponseWriter where
  statusWritten : Option Nat
  body : List BodyItem
deriving DecidableEq

def freshWriter : ResponseWriter := { statusWritten := none, body := [] }

/-- `w.WriteHeader(code)`: the first call fixes the status, later calls are
ignored (net/http logs a superfluous-call warning and does nothing). -/
def writeHeader (w : ResponseWriter) (code : Nat) : ResponseWriter :=
  match w.statusWritten with
  | some _ => w
  | none => { statusWritten := some code, body := w.body }

/-- Writing to the body: net/http commits status 200 on the first write if
`WriteHeader` was never called (made explicit by the repository's
`responseWriter.Write` wrapper in cmd/api/middleware.go). -/
def writeBody (w : ResponseWriter) (item : BodyItem) : ResponseWriter :=
  { statusWritten := some (w.statusWritten.getD 200), body := w.body ++ [item] }

/-- The status code the client observes: the written one, 200 by default. -/
def effectiveStatus (w : ResponseWriter) : Nat := w.statusWritten.getD 200

/-- `app.errorResponse(w, r, status, message)` from cmd/api/main.go: encodes
the envelope `envelope{"error": message}` to the body; on an encoding error
it calls `w.WriteHeader(http.StatusInternalServerError)`.  The `status`
parameter is taken but never used by the function body.  `encodeOk` is the
outcome of `json.NewEncoder(w).Encode(env)`. -/
def errorResponse (w : ResponseWriter) (status : Nat) (message : String)
    (encodeOk : Bool) : ResponseWriter :=
  if encodeOk then writeBody w (BodyItem.errorEnvelope message)
  else writeHeader w 500

/-! ## The payload packager: archive/tar writer model

Mirrors Go's archive/tar `Writer` (Go 1.21): `tw.err` is sticky, a flush
fails when fewer bytes were written than the header declared, `Write`
reports `ErrWriteTooLong` when the data exceeds the declared size, and
`Close` finalizes the archive and marks the writer closed. -/

inductive TarErr where
  | writeAfterClose
  | missedBytes
  | writeTooLong
deriving DecidableEq

def tarErrText : TarErr → String
  | TarErr.writeAfterClose => "archive/tar: write after close"
  | TarErr.missedBytes => "archive/tar: missed writing bytes"
  | TarErr.writeTooLong => "archive/tar: write too long"

structure TarHeader where
  name : String
  mode : Nat
  size : Nat
deriving DecidableEq

structure TarEntry where
  header : TarHeader
  contents : List Nat
deriving DecidableEq

structure TarWriter where
  finished : List TarEntry
  curr : Option (TarHeader × List Nat)
  sticky : Option TarErr
deriving DecidableEq

def twInit : TarWriter := ⟨[], none, none⟩

/-- `tw.Flush()`: fails (stickily) if the current entry still misses bytes,
otherwise finalizes it. -/
def twFlush (tw : TarWriter) : TarWriter × Option TarErr :=
  match tw.sticky with
  | some e => (tw, some e)
  | none =>
    match tw.curr with
    | none => (tw, none)
    | some (h, written) =>
      if written.length < h.size then
        ({ tw with sticky := some TarErr.missedBytes }, some TarErr.missedBytes)
      else
        ({ finished := tw.finished ++ [⟨h, written⟩], curr := none, sticky := none }, none)

/-- `tw.WriteHeader(hdr)`: flush the previous entry, then open a new one. -/
def twWriteHeader (tw : TarWriter) (h : TarHeader) : TarWriter × Option TarErr :=
  match twFlush tw with
  | (tw2, some e) => (tw2, some e)
  | (tw2, none) => ({ tw2 with curr := some (h, []) }, none)

/-- `tw.Write(b)`: appends to the current entry; bytes beyond the declared
size are truncated and `ErrWriteTooLong` is reported (not sticky, as in Go's
`regFileWriter.Write`). -/
def twWrite (tw : TarWriter) (data : List Nat) : TarWriter × Option TarErr :=
  match tw.sticky with
  | some e => (tw, some e)
  | none =>
    match tw.curr with
    | none => if data.isEmpty then (tw, none) else (tw, some TarErr.writeTooLong)
    | some (h, written) =>
      let room := h.size - written.length
      if data.length ≤ room then
        ({ tw with curr := some (h, written ++ data) }, none)
      else
        ({ tw with curr := some (h, written ++ data.take room) }, some TarErr.writeTooLong)

/-- `tw.Close()`: flush, write the trailer, and mark the writer closed
(Go records closedness as the sticky error `ErrWriteAfterClose`). -/
def twClose (tw : TarWriter) : TarWriter × Option TarErr :=
  match tw.sticky with
  | some e => (tw, some e)
  | none =>
    match twFlush tw with
    | (tw2, some e) => (tw2, some e)
    | (tw2, none) => ({ tw2 with sticky := some TarErr.writeAfterClose }, none)

/-- The payload packager exactly as both handlers perform it: one header
named `main.go` with mode 0644 and declared size `len(input.Text)`, one
write of the source bytes, then close; aborting at the first error. -/
def packagePayload (sourceText : List Nat) : TarWriter × Option TarErr :=
  match twWriteHeader twInit ⟨"main.go", 0o644, sourceText.length⟩ with
  | (tw1, some e) => (tw1, some e)
  | (tw1, none) =>
    match twWrite tw1 sourceText with
    | (tw2, some e) => (tw2, some e)
    | (tw2, none) => twClose tw2

/-- Unpacking an archive: the name/contents pairs of its finalized entries. -/
def unpackEntries (tw : TarWriter) : List (String × List Nat) :=
  tw.finished.map fun e => (e.header.name, e.contents)

/-! Stepping lemmas for the packager's exact call sequence. -/

theorem twWriteHeader_start (nm : String) (md : Nat) (text : List Nat) :
    twWriteHeader twInit ⟨nm, md, text.length⟩
      = (⟨[], some (⟨nm, md, text.length⟩, []), none⟩, none) := rfl

theorem twWrite_start (nm : String) (md : Nat) (text : List Nat) :
    twWrite ⟨[], some (⟨nm, md, text.length⟩, []), none⟩ text
      = (⟨[], some (⟨nm, md, text.length⟩, text), none⟩, none) := by
  simp [twWrite]

theorem twClose_start (nm : String) (md : Nat) (text : List Nat) :
    twClose ⟨[], some (⟨nm, md, text.length⟩, text), none⟩
      = (⟨[⟨⟨nm, md, text.length⟩, text⟩], none, some TarErr.writeAfterClose⟩, none) := by
  simp [twClose, twFlush]

/-- Claim C2: for every source text (the empty one included) the payload
packager succeeds and produces a single-entry tar archive whose only entry
is named `main.go` with permission bits 0644, whose declared size equals the
byte length of the source text and whose contents equal the source text, so
unpacking the archive yields back exactly the original bytes. -/
theorem packager_single_entry_roundtrip : ∀ sourceText : List Nat,
    (packagePayload sourceText).2 = none
    ∧ (packagePayload sourceText).1.finished
        = [⟨⟨"main.go", 0o644, sourceText.length⟩, sourceText⟩]
    ∧ unpackEntries (packagePayload sourceText).1 = [("main.go", sourceText)] := by
  intro sourceText
  simp [packagePayload, twWriteHeader_start, twWrite_start, twClose_start, unpackEntries]

/-- Claim C9: `errorResponse` never writes its `status` argument as the HTTP
status code: its result does not depend on `status` at all, on the successful
encode it only appends the error envelope to the body and leaves the status
at its prior value (200 by default), and only in the branch where the JSON
encoding itself fails does it call `WriteHeader(500)`. -/
theorem errorResponse_ignores_status_argument :
    ∀ (w : ResponseWriter) (s1 s2 : Nat) (msg : String) (encodeOk : Bool),
      errorResponse w s1 msg encodeOk = errorResponse w s2 msg encodeOk
      ∧ (errorResponse w s1 msg true).body = w.body ++ [BodyItem.errorEnvelope msg]
      ∧ effectiveStatus (errorResponse w s1 msg true) = effectiveStatus w
      ∧ effectiveStatus (errorResponse freshWriter s1 msg true) = 200
      ∧ errorResponse w s1 msg false = writeHeader w 500 := by
  intro w s1 s2 msg encodeOk
  refine ⟨rfl, ?_, ?_, ?_, rfl⟩
  · simp [errorResponse, writeBody]
  · simp [errorResponse, writeBody, effectiveStatus]
  · simp [errorResponse, writeBody, effectiveStatus, freshWriter]

/-! ## The synchronous handler variant

The synchronous `executeHandler` (decode JSON body → docker client →
container create → tar packaging → copy → start → wait with a 30s deadline →
logs → stdcopy demux → JSON response).  External calls are driven by an
oracle of outcomes; the handler records every runtime-client call, every
`errorResponse` invocation and the spec-level terminal session state. -/

/-- Spec §3 `SessionState`; `aborted` covers requests that fail before a
container exists. -/
inductive SessionState where
  | aborted
  | created
  | injected
  | running
  | succeeded
  | failed
  | timedOut
  | cancelled
deriving DecidableEq

/-- Calls made against the docker runtime client. -/
inductive RuntimeCall where
  | containerCreate
  | copyToContainer (id : String)
  | containerStart (id : String)
  | containerWait (id : String)
  | containerLogs (id : String)
  | containerRemove (id : String) (force : Bool)
deriving DecidableEq

/-- Outcome of the `select` over `errCh` / `statusCh` / `ctx.Done()`. -/
inductive WaitOutcome where
  | waitError (detail : String)
  | waitNilError
  | statusReady (exitCode : Nat)
  | ctxDone
deriving DecidableEq

/-- Outcomes of the external calls the synchronous handler makes, plus the
decoded input.  `text` is the byte string `input.Text`; `output` is the
combined demultiplexed output produced by `stdcopy.StdCopy`. -/
structure SyncOracle where
  decodeOk : Bool
  text : List Nat
  newClientOk : Bool
  createResult : Option String
  createErrDetail : String
  copyOk : Bool
  copyErrDetail : String
  startOk : Bool
  startErrDetail : String
  wait : WaitOutcome
  logsOk : Bool
  logsErrDetail : String
  stdcopyOk : Bool
  stdcopyErrDetail : String
  output : String
  encodeOk : Bool
  errEncodeOk : Bool
deriving DecidableEq

structure SyncResult where
  writer : ResponseWriter
  errorCalls : List (Nat × String)
  calls : List RuntimeCall
  finalState : SessionState
deriving DecidableEq

/-- An early return through `app.errorResponse(w, r, status, msg)`. -/
def errAbort (status : Nat) (msg : String) (o : SyncOracle)
    (calls : List RuntimeCall) (st : SessionState) : SyncResult :=
  { writer := errorResponse freshWriter status msg o.errEncodeOk
  , errorCalls := [(status, msg)]
  , calls := calls
  , finalState := st }

/-- The synchronous `executeHandler`, line for line: each failing external
call takes the corresponding `errorResponse` early return; the deferred
`cli.ContainerRemove(ctx, resp.ID, container.RemoveOptions{Force: true})` is
registered right after a successful create, so every later return appends
exactly one forced remove. -/
def syncExecuteHandler (o : SyncOracle) : SyncResult :=
  if o.decodeOk = false then
    errAbort 400 "Invalid request payload" o [] SessionState.aborted
  else if o.newClientOk = false then
    errAbort 500 "Failed to create Docker client" o [] SessionState.aborted
  else
    match o.createResult with
    | none =>
      errAbort 500 ("Failed to create container: " ++ o.createErrDetail) o
        [RuntimeCall.containerCreate] SessionState.aborted
    | some cid =>
      let cleanup := [RuntimeCall.containerRemove cid true]
      match twWriteHeader twInit ⟨"main.go", 0o644, o.text.length⟩ with
      | (_, some e) =>
        errAbort 500 ("Failed to write tar header: " ++ tarErrText e) o
          ([RuntimeCall.containerCreate] ++ cleanup) SessionState.created
      | (tw1, none) =>
        match twWrite tw1 o.text with
        | (_, some e) =>
          errAbort 500 ("Failed to write file to tar: " ++ tarErrText e) o
            ([RuntimeCall.containerCreate] ++ cleanup) SessionState.created
        | (tw2, none) =>
          match twClose tw2 with
          | (_, some e) =>
            errAbort 500 ("Failed to close tar writer: " ++ tarErrText e) o
              ([RuntimeCall.containerCreate] ++ cleanup) SessionState.created
          | (_, none) =>
            if o.copyOk = false then
              errAbort 500 ("Failed to copy files to container: " ++ o.copyErrDetail) o
                ([RuntimeCall.containerCreate, RuntimeCall.copyToContainer cid] ++ cleanup)
                SessionState.created
            else if o.startOk = false then
              errAbort 500 ("Failed to start container: " ++ o.startErrDetail) o
                ([RuntimeCall.containerCreate, RuntimeCall.copyToContainer cid,
                  RuntimeCall.containerStart cid] ++ cleanup)
                SessionState.injected
            else
              let base := [RuntimeCall.containerCreate, RuntimeCall.copyToContainer cid,
                RuntimeCall.containerStart cid, RuntimeCall.containerWait cid]
              match o.wait with
              | WaitOutcome.waitError d =>
                errAbort 500 ("Error waiting for container: " ++ d) o
                  (base ++ cleanup) SessionState.failed
              | WaitOutcome.ctxDone =>
                errAbort 408 "Execution timed out" o (base ++ cleanup) SessionState.timedOut
              | _ =>
                if o.logsOk = false then
                  errAbort 500 ("Failed to get container logs: " ++ o.logsErrDetail) o
                    (base ++ [RuntimeCall.containerLogs cid] ++ cleanup) SessionState.failed
                else if o.stdcopyOk = false then
                  errAbort 500 ("Failed to read container logs: " ++ o.stdcopyErrDetail) o
                    (base ++ [RuntimeCall.containerLogs cid] ++ cleanup) SessionState.failed
                else
                  let w1 := writeHeader freshWriter 200
                  { writer :=
                      if o.encodeOk then
                        writeBody w1 (BodyItem.successEnvelope "success" o.output)
                      else
                        errorResponse w1 500 "Failed to encode response" o.errEncodeOk
                  , errorCalls := if o.encodeOk then [] else [(500, "Failed to encode response")]
                  , calls := base ++ [RuntimeCall.containerLogs cid] ++ cleanup
                  , finalState := SessionState.succeeded }

/-- The container-removal calls of a call trace. -/
def removeCalls (cs : List RuntimeCall) : List RuntimeCall :=
  cs.filter fun c =>
    match c with
    | RuntimeCall.containerRemove _ _ => true
    | _ => false

/-- Claim C3 (evidence): in the timeout scenario (environment created, copy
and start succeed, the 30s deadline fires before the process exits) the
synchronous handler stops waiting — no logs call is made — invokes
`errorResponse` with status argument 408 and the message
`Execution timed out`, marks the session timed out, and the deferred forced
container removal runs; but the HTTP status actually written is 200, the
net/http default, because `errorResponse` never uses its status argument. -/
theorem sync_timeout_evidence (cid : String) (text : List Nat) (output : String) :
    let o : SyncOracle :=
      ⟨true, text, true, some cid, "", true, "", true, "", WaitOutcome.ctxDone,
        true, "", true, "", output, true, true⟩
    (syncExecuteHandler o).errorCalls = [(408, "Execution timed out")]
    ∧ (syncExecuteHandler o).writer
        = ⟨some 200, [BodyItem.errorEnvelope "Execution timed out"]⟩
    ∧ effectiveStatus (syncExecuteHandler o).writer = 200
    ∧ (syncExecuteHandler o).calls
        = [RuntimeCall.containerCreate, RuntimeCall.copyToContainer cid,
           RuntimeCall.containerStart cid, RuntimeCall.containerWait cid,
           RuntimeCall.containerRemove cid true]
    ∧ (syncExecuteHandler o).finalState = SessionState.timedOut := by
  intro o
  simp [o, syncExecuteHandler, twWriteHeader_start, twWrite_start, twClose_start,
    errAbort, errorResponse, writeBody, freshWriter, effectiveStatus]

/-- Claim C4 (evidence): when container creation fails, the synchronous
handler invokes `errorResponse` with status argument 500 and a message that
starts with `Failed to create container`, makes no container-removal call;
but the HTTP status actually written is 200, the net/http default, because
`errorResponse` never uses its status argument. -/
theorem sync_create_fail_evidence (d : String) (text : List Nat) :
    let o : SyncOracle :=
      ⟨true, text, true, none, d, true, "", true, "", WaitOutcome.statusReady 0,
        true, "", true, "", "", true, true⟩
    (syncExecuteHandler o).errorCalls = [(500, "Failed to create container: " ++ d)]
    ∧ (syncExecuteHandler o).writer
        = ⟨some 200, [BodyItem.errorEnvelope ("Failed to create container: " ++ d)]⟩
    ∧ effectiveStatus (syncExecuteHandler o).writer = 200
    ∧ (syncExecuteHandler o).calls = [RuntimeCall.containerCreate]
    ∧ removeCalls (syncExecuteHandler o).calls = []
    ∧ (∃ rest, "Failed to create container: " ++ d
          = "Failed to create container" ++ rest) := by
  intro o
  refine ⟨?_, ?_, ?_, ?_, ?_, ⟨": " ++ d, ?_⟩⟩
  · simp [o, syncExecuteHandler, errAbort]
  · simp [o, syncExecuteHandler, errAbort, errorResponse, writeBody, freshWriter]
  · simp [o, syncExecuteHandler, errAbort, errorResponse, writeBody, freshWriter,
      effectiveStatus]
  · simp [o, syncExecuteHandler, errAbort]
  · simp [o, syncExecuteHandler, errAbort, removeCalls]
  · rw [← String.append_assoc]
    rfl

/-- The UTF-8 bytes of a Go string (Go's `len` and `[]byte` conversion). -/
def strBytes (s : String) : List Nat := s.toUTF8.toList.map fun b => b.toNat

/-- Claim C7: for input text `print(1)`, when the container runtime reports
process exit via the status channel (exit code 0) and the demultiplexed
combined output is `1\n`, the synchronous handler writes HTTP status 200 and
the JSON body with status `success` and output `1\n`. -/
theorem sync_success_scenario (cid : String) :
    let o : SyncOracle :=
      ⟨true, strBytes "print(1)", true, some cid, "", true, "", true, "",
        WaitOutcome.statusReady 0, true, "", true, "", "1\n", true, true⟩
    (syncExecuteHandler o).writer
        = ⟨some 200, [BodyItem.successEnvelope "success" "1\n"]⟩
    ∧ effectiveStatus (syncExecuteHandler o).writer = 200
    ∧ (syncExecuteHandler o).errorCalls = []
    ∧ (syncExecuteHandler o).finalState = SessionState.succeeded := by
  intro o
  simp [o, syncExecuteHandler, twWriteHeader_start, twWrite_start, twClose_start,
    writeBody, writeHeader, freshWriter, effectiveStatus]

/-! ## The streaming handler (cmd/api/execute.go)

After its prologue the handler runs two concurrent tasks: a goroutine that
waits on `ContainerWait` / the 30-second context and closes the `done`
channel (writing a close frame first in the error and timeout branches), and
the main loop that demultiplexes log chunks with `stdcopy.StdCopy` and
forwards them as websocket text frames, checking `done` at the top of every
iteration.  The interleaving of the two tasks (and a possible client
disconnect) is an explicit schedule of atomic actions. -/

/-- A server-to-client websocket frame. -/
inductive Frame where
  | text (data : List Nat)
  | close (status : String)
deriving DecidableEq

/-- The websocket connection as gorilla/websocket exposes it to writers:
after a network write error every later write fails, and after a close frame
has been written every later write fails with `ErrCloseSent`. -/
structure Conn where
  clientGone : Bool
  closeSent : Bool
  delivered : List Frame
deriving DecidableEq

def conn0 : Conn := ⟨false, false, []⟩

/-- `conn.WriteMessage`: fails (delivering nothing) once a close frame has
been sent (`ErrCloseSent`) or the client connection is gone; a successfully
written close frame marks the connection close-sent. -/
def writeFrame (c : Conn) (f : Frame) : Conn × Bool :=
  if c.closeSent then (c, false)
  else if c.clientGone then (c, false)
  else
    ({ clientGone := c.clientGone
     , closeSent := (match f with | Frame.close _ => true | _ => false)
     , delivered := c.delivered ++ [f] }, true)

/-- One `stdcopy.StdCopy` read on the follow-mode log stream: a pair of
stdout/stderr chunks, a decode error with its detail, or end of stream. -/
inductive ReadEvent where
  | chunk (outData errData : List Nat)
  | readErr (detail : String)
  | eof
deriving DecidableEq

/-- Outcome of the wait goroutine's `select` over `errCh` / `statusCh` /
`ctx.Done()`. -/
inductive SWaitOutcome where
  | waitError (detail : String)
  | waitNilError
  | statusReady (exitCode : Nat)
  | ctxTimeout
deriving DecidableEq

/-- Program counter of the wait goroutine: before its `select`, about to
`close(done)`, finished. -/
inductive WaitPc where
  | start
  | closeDone
  | finished
deriving DecidableEq

/-- Program counter of the forwarding loop: at the top of an iteration
(about to check `done`), about to send the stdout chunk, about to send the
stderr chunk, or returned from the handler. -/
inductive LoopPc where
  | top
  | sendOut (outData errData : List Nat)
  | sendErr (errData : List Nat)
  | returned
deriving DecidableEq

/-- Joint state of the concurrent phase. -/
structure SState where
  conn : Conn
  doneClosed : Bool
  waitPc : WaitPc
  loopPc : LoopPc
  reads : List ReadEvent
  wait : SWaitOutcome
  cid : String
  calls : List RuntimeCall
  logTrace : List String
deriving DecidableEq

/-- One step of the wait goroutine.  In the `errCh`-error and `ctx.Done()`
branches it writes a close frame (`Internal Server Error` / `Request
Timeout`) before closing `done`; error details go to the logger only. -/
def waitStepF (s : SState) : SState :=
  match s.waitPc with
  | WaitPc.start =>
    match s.wait with
    | SWaitOutcome.waitError d =>
      { s with conn := (writeFrame s.conn (Frame.close "Internal Server Error")).1
             , waitPc := WaitPc.closeDone
             , calls := s.calls ++ [RuntimeCall.containerWait s.cid]
             , logTrace := s.logTrace ++ ["Container wait failed: " ++ d] }
    | SWaitOutcome.waitNilError =>
      { s with waitPc := WaitPc.closeDone
             , calls := s.calls ++ [RuntimeCall.containerWait s.cid] }
    | SWaitOutcome.statusReady _ =>
      { s with waitPc := WaitPc.closeDone
             , calls := s.calls ++ [RuntimeCall.containerWait s.cid]
             , logTrace := s.logTrace ++ ["Container completed successfully"] }
    | SWaitOutcome.ctxTimeout =>
      { s with conn := (writeFrame s.conn (Frame.close "Request Timeout")).1
             , waitPc := WaitPc.closeDone
             , calls := s.calls ++ [RuntimeCall.containerWait s.cid]
             , logTrace := s.logTrace ++ ["Execution timed out"] }
  | WaitPc.closeDone => { s with doneClosed := true, waitPc := WaitPc.finished }
  | WaitPc.finished => s

/-- Returning from the handler: the deferred
`cli.ContainerRemove(ctx, resp.ID, container.RemoveOptions{Force: true})`
runs. -/
def loopReturn (s : SState) : SState :=
  { s with loopPc := LoopPc.returned
         , calls := s.calls ++ [RuntimeCall.containerRemove s.cid true] }

/-- One step of the forwarding loop: at the top it takes the `done` branch of
the `select` if `done` is closed, otherwise performs the next `StdCopy` read;
nonempty stdout/stderr chunks are each sent as one text frame, and any write
failure makes the loop return. -/
def loopStepF (s : SState) : SState :=
  match s.loopPc with
  | LoopPc.returned => s
  | LoopPc.top =>
    if s.doneClosed then loopReturn s
    else
      match s.reads with
      | [] => s
      | e :: rest =>
        match e with
        | ReadEvent.eof => loopReturn { s with reads := rest }
        | ReadEvent.readErr d =>
          loopReturn
            { s with reads := rest
                   , conn := (writeFrame s.conn (Frame.close "Internal Server Error")).1
                   , logTrace := s.logTrace ++ ["Failed to read logs: " ++ d] }
        | ReadEvent.chunk outData errData =>
          { s with reads := rest, loopPc := LoopPc.sendOut outData errData }
  | LoopPc.sendOut outData errData =>
    if outData.isEmpty then { s with loopPc := LoopPc.sendErr errData }
    else
      match writeFrame s.conn (Frame.text outData) with
      | (c, true) => { s with conn := c, loopPc := LoopPc.sendErr errData }
      | (c, false) =>
        loopReturn
          { s with conn := c
                 , logTrace := s.logTrace ++ ["Failed to write to websocket"] }
  | LoopPc.sendErr errData =>
    if errData.isEmpty then { s with loopPc := LoopPc.top }
    else
      match writeFrame s.conn (Frame.text errData) with
      | (c, true) => { s with conn := c, loopPc := LoopPc.top }
      | (c, false) =>
        loopReturn
          { s with conn := c
                 , logTrace := s.logTrace ++ ["Failed to write to websocket"] }

/-- Atomic actions of a schedule: a step of the wait goroutine, a step of
the forwarding loop, or the client disconnecting. -/
inductive SAction where
  | waitStep
  | loopStep
  | disconnect
deriving DecidableEq

def stepA (s : SState) (a : SAction) : SState :=
  match a with
  | SAction.waitStep => waitStepF s
  | SAction.loopStep => loopStepF s
  | SAction.disconnect => { s with conn := { s.conn with clientGone := true } }

def runSteps (s : SState) (sched : List SAction) : SState :=
  match sched with
  | [] => s
  | a :: rest => runSteps (stepA s a) rest

/-- Outcomes of the streaming handler's prologue calls, with the logger-only
error detail of each. -/
structure StreamOracle where
  upgradeOk : Bool
  upgradeErrDetail : String
  readJsonOk : Bool
  readErrDetail : String
  text : List Nat
  newClientOk : Bool
  clientErrDetail : String
  createResult : Option String
  createErrDetail : String
  copyOk : Bool
  copyErrDetail : String
  startOk : Bool
  startErrDetail : String
  logsOk : Bool
  logsErrDetail : String
deriving DecidableEq

/-- Observable result of one streaming request: the frames delivered to the
client, the runtime-client calls, the log lines, and whether the handler has
returned. -/
structure StreamResult where
  delivered : List Frame
  calls : List RuntimeCall
  logTrace : List String
  returned : Bool
deriving DecidableEq

/-- A prologue abort that writes a close frame with the given status text. -/
def closeAbort (st : String) : List Frame := (writeFrame conn0 (Frame.close st)).1.delivered

/-- The streaming `executeHandler` of cmd/api/execute.go: the prologue
(upgrade → read JSON → docker client → create → tar → copy → start → logs),
then the concurrent phase driven by `sched`.  Failures before the container
exists return with no removal call; failures after it run the deferred
forced removal; in the concurrent phase the removal runs when the
forwarding loop returns. -/
def streamRun (o : StreamOracle) (wait : SWaitOutcome) (reads : List ReadEvent)
    (sched : List SAction) : StreamResult :=
  if o.upgradeOk = false then
    { delivered := [], calls := []
    , logTrace := ["Failed to upgrade connection: " ++ o.upgradeErrDetail]
    , returned := true }
  else if o.readJsonOk = false then
    { delivered := closeAbort "Bad Request", calls := []
    , logTrace := ["Failed to read JSON: " ++ o.readErrDetail]
    , returned := true }
  else if o.newClientOk = false then
    { delivered := closeAbort "Internal Server Error", calls := []
    , logTrace := ["Failed to create Docker client: " ++ o.clientErrDetail]
    , returned := true }
  else
    match o.createResult with
    | none =>
      { delivered := closeAbort "Internal Server Error"
      , calls := [RuntimeCall.containerCreate]
      , logTrace := ["Failed to create container: " ++ o.createErrDetail]
      , returned := true }
    | some cid =>
      let cleanup := [RuntimeCall.containerRemove cid true]
      match twWriteHeader twInit ⟨"main.go", 0o644, o.text.length⟩ with
      | (_, some e) =>
        { delivered := closeAbort "Internal Server Error"
        , calls := [RuntimeCall.containerCreate] ++ cleanup
        , logTrace := ["Failed to write tar header: " ++ tarErrText e]
        , returned := true }
      | (tw1, none) =>
        match twWrite tw1 o.text with
        | (_, some e) =>
          { delivered := closeAbort "Internal Server Error"
          , calls := [RuntimeCall.containerCreate] ++ cleanup
          , logTrace := ["Failed to write file to tar: " ++ tarErrText e]
          , returned := true }
        | (tw2, none) =>
          match twClose tw2 with
          | (_, some e) =>
            { delivered := closeAbort "Internal Server Error"
            , calls := [RuntimeCall.containerCreate] ++ cleanup
            , logTrace := ["Failed to close tar writer: " ++ tarErrText e]
            , returned := true }
          | (_, none) =>
            if o.copyOk = false then
              { delivered := closeAbort "Internal Server Error"
              , calls := [RuntimeCall.containerCreate, RuntimeCall.copyToContainer cid]
                  ++ cleanup
              , logTrace := ["Failed to copy files to container: " ++ o.copyErrDetail]
              , returned := true }
            else if o.startOk = false then
              { delivered := closeAbort "Internal Server Error"
              , calls := [RuntimeCall.containerCreate, RuntimeCall.copyToContainer cid,
                  RuntimeCall.containerStart cid] ++ cleanup
              , logTrace := ["Failed to start container: " ++ o.startErrDetail]
              , returned := true }
            else if o.logsOk = false then
              { delivered := closeAbort "Internal Server Error"
              , calls := [RuntimeCall.containerCreate, RuntimeCall.copyToContainer cid,
                  RuntimeCall.containerStart cid, RuntimeCall.containerLogs cid] ++ cleanup
              , logTrace := ["Failed to get container logs: " ++ o.logsErrDetail]
              , returned := true }
            else
              let fs := runSteps
                { conn := conn0, doneClosed := false, waitPc := WaitPc.start
                , loopPc := LoopPc.top, reads := reads, wait := wait, cid := cid
                , calls := [RuntimeCall.containerCreate, RuntimeCall.copyToContainer cid,
                    RuntimeCall.containerStart cid, RuntimeCall.containerLogs cid]
                , logTrace := ["container started"] } sched
              { delivered := fs.conn.delivered
              , calls := fs.calls
              , logTrace := fs.logTrace
              , returned := decide (fs.loopPc = LoopPc.returned) }

/-! ## Invariants of the concurrent phase -/

/-- Once the connection is close-sent or the client is gone, every write
fails and delivers nothing. -/
theorem writeFrame_failed (c : Conn) (f : Frame)
    (h : c.closeSent = true ∨ c.clientGone = true) :
    writeFrame c f = (c, false) := by
  rcases h with h | h
  · simp [writeFrame, h]
  · simp [writeFrame, h]

/-- A write either leaves the delivered trace unchanged or appends the one
frame being written. -/
theorem writeFrame_delivered (c : Conn) (f : Frame) :
    (writeFrame c f).1.delivered = c.delivered
    ∨ (writeFrame c f).1.delivered = c.delivered ++ [f] := by
  by_cases h1 : c.closeSent = true
  · exact Or.inl (by simp [writeFrame, h1])
  · by_cases h2 : c.clientGone = true
    · exact Or.inl (by simp [writeFrame, h1, h2])
    · exact Or.inr (by simp [writeFrame, h1, h2])

/-- The flags `closeSent` and `clientGone` are monotone under writes. -/
theorem writeFrame_mono (c : Conn) (f : Frame) :
    (c.closeSent = true → (writeFrame c f).1.closeSent = true)
    ∧ (c.clientGone = true → (writeFrame c f).1.clientGone = true) := by
  constructor
  · intro h; simp [writeFrame, h]
  · intro h
    by_cases h1 : c.closeSent = true
    · simp [writeFrame, h1, h]
    · simp [writeFrame, h1, h]

/-- The loop task never touches the done flag, the wait goroutine's state,
the wait outcome or the container id. -/
theorem loopStepF_frame (s : SState) :
    (loopStepF s).doneClosed = s.doneClosed ∧ (loopStepF s).waitPc = s.waitPc
    ∧ (loopStepF s).wait = s.wait ∧ (loopStepF s).cid = s.cid := by
  cases hpc : s.loopPc with
  | top =>
    cases hdc : s.doneClosed
    · rcases hr : s.reads with _ | ⟨e, rest⟩
      · simp [loopStepF, hpc, hdc, hr]
      · cases e <;> simp [loopStepF, loopReturn, hpc, hdc, hr]
    · simp [loopStepF, loopReturn, hpc, hdc]
  | sendOut outData errData =>
    cases ho : outData.isEmpty
    · rcases hw : writeFrame s.conn (Frame.text outData) with ⟨c, ok⟩
      cases ok <;> simp [loopStepF, loopReturn, hpc, ho, hw]
    · simp [loopStepF, hpc, ho]
  | sendErr errData =>
    cases ho : errData.isEmpty
    · rcases hw : writeFrame s.conn (Frame.text errData) with ⟨c, ok⟩
      cases ok <;> simp [loopStepF, loopReturn, hpc, ho, hw]
    · simp [loopStepF, hpc, ho]
  | returned => simp [loopStepF, hpc]

/-- The wait goroutine never touches the loop's state, the wait outcome, the
container id, or the removal calls of the trace. -/
theorem waitStepF_frame (s : SState) :
    (waitStepF s).wait = s.wait ∧ (waitStepF s).cid = s.cid
    ∧ (waitStepF s).loopPc = s.loopPc
    ∧ removeCalls (waitStepF s).calls = removeCalls s.calls := by
  cases hpc : s.waitPc with
  | start =>
    cases hwo : s.wait <;>
      simp [waitStepF, hpc, hwo, removeCalls, List.filter_append]
  | closeDone => simp [waitStepF, hpc]
  | finished => simp [waitStepF, hpc]

/-- Every step preserves the wait outcome and the container id. -/
theorem stepA_frame (s : SState) (a : SAction) :
    (stepA s a).wait = s.wait ∧ (stepA s a).cid = s.cid := by
  cases a with
  | waitStep => exact ⟨(waitStepF_frame s).1, (waitStepF_frame s).2.1⟩
  | loopStep => exact ⟨(loopStepF_frame s).2.2.1, (loopStepF_frame s).2.2.2⟩
  | disconnect => exact ⟨rfl, rfl⟩

theorem runSteps_frame (s : SState) (sched : List SAction) :
    (runSteps s sched).wait = s.wait ∧ (runSteps s sched).cid = s.cid := by
  induction sched generalizing s with
  | nil => exact ⟨rfl, rfl⟩
  | cons a rest ih =>
    have h1 := stepA_frame s a
    have h2 := ih (stepA s a)
    simp only [runSteps]
    exact ⟨h2.1.trans h1.1, h2.2.trans h1.2⟩

/-- Once the connection is dead (close frame sent or client gone), no step
delivers anything further and the connection stays dead. -/
theorem step_dead (s : SState) (a : SAction)
    (h : s.conn.closeSent = true ∨ s.conn.clientGone = true) :
    (stepA s a).conn.delivered = s.conn.delivered
    ∧ ((stepA s a).conn.closeSent = true ∨ (stepA s a).conn.clientGone = true) := by
  have hw : ∀ f, writeFrame s.conn f = (s.conn, false) :=
    fun f => writeFrame_failed s.conn f h
  cases a with
  | disconnect =>
    rcases h with h | h
    · exact ⟨rfl, Or.inl (by simp [stepA, h])⟩
    · exact ⟨rfl, Or.inr (by simp [stepA])⟩
  | waitStep =>
    cases hpc : s.waitPc with
    | start => cases hwo : s.wait <;> simp [stepA, waitStepF, hpc, hwo, hw, h]
    | closeDone => simp [stepA, waitStepF, hpc, h]
    | finished => simp [stepA, waitStepF, hpc, h]
  | loopStep =>
    cases hpc : s.loopPc with
    | top =>
      cases hdc : s.doneClosed
      · rcases hr : s.reads with _ | ⟨e, rest⟩
        · simp [stepA, loopStepF, hpc, hdc, hr, h]
        · cases e <;> simp [stepA, loopStepF, loopReturn, hpc, hdc, hr, hw, h]
      · simp [stepA, loopStepF, loopReturn, hpc, hdc, h]
    | sendOut outData errData =>
      cases ho : outData.isEmpty
      · simp [stepA, loopStepF, loopReturn, hpc, ho, hw, h]
      · simp [stepA, loopStepF, hpc, ho, h]
    | sendErr errData =>
      cases ho : errData.isEmpty
      · simp [stepA, loopStepF, loopReturn, hpc, ho, hw, h]
      · simp [stepA, loopStepF, hpc, ho, h]
    | returned => simp [stepA, loopStepF, hpc, h]

/-- Run-level version of `step_dead`. -/
theorem run_dead (s : SState) (sched : List SAction)
    (h : s.conn.closeSent = true ∨ s.conn.clientGone = true) :
    (runSteps s sched).conn.delivered = s.conn.delivered
    ∧ ((runSteps s sched).conn.closeSent = true
        ∨ (runSteps s sched).conn.clientGone = true) := by
  induction sched generalizing s with
  | nil => exact ⟨rfl, h⟩
  | cons a rest ih =>
    have hs := step_dead s a h
    have hr := ih (stepA s a) hs.2
    simp only [runSteps]
    exact ⟨hr.1.trans hs.1, hr.2⟩

/-- The timeout invariant: once `done` can be (or has been) closed in a
timeout run, the wait goroutine has already passed its `select`, and in the
timeout branch that step wrote the `Request Timeout` close frame first — so
the connection is already dead (close-sent, or the client was gone and the
write failed). -/
def timeoutJ (s : SState) : Prop :=
  (s.doneClosed = true → s.waitPc ≠ WaitPc.start)
  ∧ (s.wait = SWaitOutcome.ctxTimeout → s.waitPc ≠ WaitPc.start →
      (s.conn.closeSent = true ∨ s.conn.clientGone = true))

theorem step_timeoutJ (s : SState) (a : SAction) (h : timeoutJ s) :
    timeoutJ (stepA s a) := by
  obtain ⟨h1, h2⟩ := h
  cases a with
  | disconnect =>
    refine ⟨fun hd => h1 hd, fun _ _ => Or.inr ?_⟩
    simp [stepA]
  | loopStep =>
    have hf := loopStepF_frame s
    constructor
    · intro hd
      rw [show (stepA s SAction.loopStep).doneClosed = s.doneClosed from hf.1] at hd
      rw [show (stepA s SAction.loopStep).waitPc = s.waitPc from hf.2.1]
      exact h1 hd
    · intro hwo hne
      rw [show (stepA s SAction.loopStep).wait = s.wait from hf.2.2.1] at hwo
      rw [show (stepA s SAction.loopStep).waitPc = s.waitPc from hf.2.1] at hne
      have hdead := h2 hwo hne
      exact (step_dead s SAction.loopStep hdead).2
  | waitStep =>
    cases hpc : s.waitPc with
    | start =>
      constructor
      · intro _
        cases hwo : s.wait <;> simp [stepA, waitStepF, hpc, hwo]
      · intro hwo _
        have hwo2 : s.wait = SWaitOutcome.ctxTimeout := by
          rw [← (stepA_frame s SAction.waitStep).1]
          exact hwo
        by_cases hcs : s.conn.closeSent = true
        · have := (writeFrame_mono s.conn (Frame.close "Request Timeout")).1 hcs
          simp [stepA, waitStepF, hpc, hwo2]
          exact Or.inl this
        · by_cases hcg : s.conn.clientGone = true
          · have := (writeFrame_mono s.conn (Frame.close "Request Timeout")).2 hcg
            simp [stepA, waitStepF, hpc, hwo2]
            exact Or.inr this
          · simp [stepA, waitStepF, hpc, hwo2, writeFrame, hcs, hcg]
    | closeDone =>
      constructor
      · intro _
        simp [stepA, waitStepF, hpc]
      · intro hwo _
        have hwo2 : s.wait = SWaitOutcome.ctxTimeout := by
          rw [← (stepA_frame s SAction.waitStep).1]
          exact hwo
        have hdead := h2 hwo2 (by simp [hpc])
        simpa [stepA, waitStepF, hpc] using hdead
    | finished =>
      constructor
      · intro _
        simp [stepA, waitStepF, hpc]
      · intro hwo _
        have hwo2 : s.wait = SWaitOutcome.ctxTimeout := by
          rw [← (stepA_frame s SAction.waitStep).1]
          exact hwo
        have hdead := h2 hwo2 (by simp [hpc])
        simpa [stepA, waitStepF, hpc] using hdead

theorem run_timeoutJ (s : SState) (sched : List SAction) (h : timeoutJ s) :
    timeoutJ (runSteps s sched) := by
  induction sched generalizing s with
  | nil => exact h
  | cons a rest ih =>
    simp only [runSteps]
    exact ih (stepA s a) (step_timeoutJ s a h)

/-- Claim C6: in streaming mode, when the deadline branch decides the
outcome, the `done` signal is closed only after the `Request Timeout` close
frame has been written, so from any state of a timeout run in which `done`
has been observed closed, no schedule can deliver any further frame to the
client — the forwarding loop sends nothing more. -/
theorem stream_timeout_no_output_after_done (s : SState)
    (h1 : s.wait = SWaitOutcome.ctxTimeout) (h2 : s.doneClosed = false)
    (h3 : s.waitPc = WaitPc.start) (sched1 sched2 : List SAction)
    (hdone : (runSteps s sched1).doneClosed = true) :
    (runSteps (runSteps s sched1) sched2).conn.delivered
      = (runSteps s sched1).conn.delivered := by
  have hJ0 : timeoutJ s := by
    constructor
    · intro hd
      rw [h2] at hd
      exact absurd hd (by simp)
    · intro _ hne
      exact absurd h3 hne
  have hJ1 := run_timeoutJ s sched1 hJ0
  have hwait : (runSteps s sched1).wait = SWaitOutcome.ctxTimeout :=
    (runSteps_frame s sched1).1.trans h1
  have hdead := hJ1.2 hwait (hJ1.1 hdone)
  exact (run_dead (runSteps s sched1) sched2 hdead).1

/-- Claim C5: if the streaming client disconnects mid-execution, nothing
further is ever delivered to it; the forwarding loop detects the disconnect
at its next write of a nonempty chunk, returns immediately, and the deferred
forced container removal runs; once the loop has returned its state is
stable (the handler has exited normally — there is no further effect). -/
theorem stream_disconnect_detected_cleanup :
    (∀ (s : SState) (sched : List SAction), s.conn.clientGone = true →
        (runSteps s sched).conn.delivered = s.conn.delivered)
    ∧ (∀ (s : SState) (outData errData : List Nat),
        s.conn.clientGone = true → s.loopPc = LoopPc.sendOut outData errData →
        outData.isEmpty = false →
        (loopStepF s).loopPc = LoopPc.returned
        ∧ (loopStepF s).calls = s.calls ++ [RuntimeCall.containerRemove s.cid true])
    ∧ (∀ s : SState, s.loopPc = LoopPc.returned → loopStepF s = s) := by
  refine ⟨?_, ?_, ?_⟩
  · intro s sched h
    exact (run_dead s sched (Or.inr h)).1
  · intro s outData errData hg hpc ho
    have hw := writeFrame_failed s.conn (Frame.text outData) (Or.inr hg)
    constructor
    · simp [loopStepF, loopReturn, hpc, ho, hw]
    · simp [loopStepF, loopReturn, hpc, ho, hw]
  · intro s hpc
    simp [loopStepF, hpc]

/-- In the concurrent phase, the trace contains the forced removal exactly
when the forwarding loop has returned (the deferred removal runs on handler
return), and then exactly once. -/
def removeInv (s : SState) : Prop :=
  removeCalls s.calls
    = (if s.loopPc = LoopPc.returned
        then [RuntimeCall.containerRemove s.cid true] else [])

theorem removeCalls_append (xs ys : List RuntimeCall) :
    removeCalls (xs ++ ys) = removeCalls xs ++ removeCalls ys := by
  simp [removeCalls, List.filter_append]

theorem step_removeInv (s : SState) (a : SAction) (h : removeInv s) :
    removeInv (stepA s a) := by
  unfold removeInv at h ⊢
  cases a with
  | disconnect => simpa [stepA] using h
  | waitStep =>
    have hf := waitStepF_frame s
    rw [show stepA s SAction.waitStep = waitStepF s from rfl, hf.2.2.2, hf.2.2.1, hf.2.1]
    exact h
  | loopStep =>
    rw [show stepA s SAction.loopStep = loopStepF s from rfl]
    cases hpc : s.loopPc with
    | returned => simpa [loopStepF, hpc] using (by simpa [hpc] using h)
    | top =>
      have h0 : removeCalls s.calls = [] := by simpa [hpc] using h
      cases hdc : s.doneClosed
      · rcases hr : s.reads with _ | ⟨e, rest⟩
        · simpa [loopStepF, hpc, hdc, hr] using h0
        · cases e <;>
            simp [loopStepF, loopReturn, hpc, hdc, hr, removeCalls_append, h0] <;>
            simp [removeCalls]
      · simp [loopStepF, loopReturn, hpc, hdc, removeCalls_append, h0]
        simp [removeCalls]
    | sendOut outData errData =>
      have h0 : removeCalls s.calls = [] := by simpa [hpc] using h
      cases ho : outData.isEmpty
      · rcases hw : writeFrame s.conn (Frame.text outData) with ⟨c, ok⟩
        cases ok
        · simp [loopStepF, loopReturn, hpc, ho, hw, removeCalls_append, h0]
          simp [removeCalls]
        · simpa [loopStepF, hpc, ho, hw] using h0
      · simpa [loopStepF, hpc, ho] using h0
    | sendErr errData =>
      have h0 : removeCalls s.calls = [] := by simpa [hpc] using h
      cases ho : errData.isEmpty
      · rcases hw : writeFrame s.conn (Frame.text errData) with ⟨c, ok⟩
        cases ok
        · simp [loopStepF, loopReturn, hpc, ho, hw, removeCalls_append, h0]
          simp [removeCalls]
        · simpa [loopStepF, hpc, ho, hw] using h0
      · simpa [loopStepF, hpc, ho] using h0

theorem run_removeInv (s : SState) (sched : List SAction) (h : removeInv s) :
    removeInv (runSteps s sched) := by
  induction sched generalizing s with
  | nil => exact h
  | cons a rest ih =>
    simp only [runSteps]
    exact ih (stepA s a) (step_removeInv s a h)

/-- The concurrent phase, started with a removal-free trace, produces the
forced removal exactly once when the loop returns and never otherwise. -/
theorem streamPhase_remove (cid : String) (wait : SWaitOutcome)
    (reads : List ReadEvent) (sched : List SAction) (calls0 : List RuntimeCall)
    (h0 : removeCalls calls0 = []) (c : Conn) (logs0 : List String) :
    ((runSteps ⟨c, false, WaitPc.start, LoopPc.top, reads, wait, cid, calls0, logs0⟩
        sched).loopPc = LoopPc.returned →
      removeCalls (runSteps ⟨c, false, WaitPc.start, LoopPc.top, reads, wait, cid,
        calls0, logs0⟩ sched).calls = [RuntimeCall.containerRemove cid true])
    ∧ (removeCalls (runSteps ⟨c, false, WaitPc.start, LoopPc.top, reads, wait, cid,
          calls0, logs0⟩ sched).calls = []
        ∨ removeCalls (runSteps ⟨c, false, WaitPc.start, LoopPc.top, reads, wait, cid,
            calls0, logs0⟩ sched).calls = [RuntimeCall.containerRemove cid true]) := by
  have hinv0 : removeInv ⟨c, false, WaitPc.start, LoopPc.top, reads, wait, cid, calls0, logs0⟩ := by
    simpa [removeInv] using h0
  have hinv := run_removeInv _ sched hinv0
  have hcid := (runSteps_frame
    ⟨c, false, WaitPc.start, LoopPc.top, reads, wait, cid, calls0, logs0⟩ sched).2
  unfold removeInv at hinv
  rw [hcid] at hinv
  constructor
  · intro hret
    rw [hinv, if_pos hret]
  · by_cases hret : (runSteps ⟨c, false, WaitPc.start, LoopPc.top, reads, wait, cid,
        calls0, logs0⟩ sched).loopPc = LoopPc.returned
    · exact Or.inr (by rw [hinv, if_pos hret])
    · exact Or.inl (by rw [hinv, if_neg hret])

/-- Claim C1: for every session in which environment creation succeeds, the
forced container removal is invoked exactly once on every exit path — in
the synchronous handler on every oracle outcome (success, failure, timeout),
and in the streaming handler on every prologue abort after creation and
whenever the forwarding loop returns (at most once in any case); when
creation fails, no removal is ever attempted. -/
theorem cleanup_exactly_once :
    (∀ (o : SyncOracle) (cid : String),
        o.decodeOk = true → o.newClientOk = true → o.createResult = some cid →
        removeCalls (syncExecuteHandler o).calls = [RuntimeCall.containerRemove cid true])
    ∧ (∀ o : SyncOracle, o.createResult = none →
        removeCalls (syncExecuteHandler o).calls = [])
    ∧ (∀ (o : StreamOracle) (wait : SWaitOutcome) (reads : List ReadEvent)
        (sched : List SAction) (cid : String),
        o.upgradeOk = true → o.readJsonOk = true → o.newClientOk = true →
        o.createResult = some cid →
        ((streamRun o wait reads sched).returned = true →
            removeCalls (streamRun o wait reads sched).calls
              = [RuntimeCall.containerRemove cid true])
        ∧ (removeCalls (streamRun o wait reads sched).calls = []
            ∨ removeCalls (streamRun o wait reads sched).calls
                = [RuntimeCall.containerRemove cid true])) := by
  refine ⟨?_, ?_, ?_⟩
  · intro o cid hd hn hc
    simp only [syncExecuteHandler, hd, hn, hc, twWriteHeader_start, twWrite_start,
      twClose_start]
    repeat' split
    all_goals simp_all [errAbort, removeCalls]
  · intro o hc
    simp only [syncExecuteHandler, hc]
    repeat' split
    all_goals simp_all [errAbort, removeCalls]
  · intro o wait reads sched cid hu hr hn hc
    simp only [streamRun, hu, hr, hn, hc, twWriteHeader_start, twWrite_start,
      twClose_start]
    repeat' split
    all_goals try (exact absurd ‹true = false› (by simp))
    all_goals try (refine ⟨fun _ => ?_, Or.inr ?_⟩ <;> (simp [removeCalls]; done))
    all_goals refine ⟨fun hret => ?_, ?_⟩
    · refine (streamPhase_remove cid wait reads sched
        [RuntimeCall.containerCreate, RuntimeCall.copyToContainer cid,
         RuntimeCall.containerStart cid, RuntimeCall.containerLogs cid]
        (by simp [removeCalls]) conn0 ["container started"]).1 ?_
      exact of_decide_eq_true (by simpa using hret)
    · exact (streamPhase_remove cid wait reads sched
        [RuntimeCall.containerCreate, RuntimeCall.copyToContainer cid,
         RuntimeCall.containerStart cid, RuntimeCall.containerLogs cid]
        (by simp [removeCalls]) conn0 ["container started"]).2

/-- A frame the streaming handler is allowed to put on the wire: any text
frame (an output chunk), or a close frame carrying one of the three fixed
status phrases. -/
def frameOk (f : Frame) : Prop :=
  match f with
  | Frame.text _ => True
  | Frame.close st =>
      st = "Bad Request" ∨ st = "Internal Server Error" ∨ st = "Request Timeout"

theorem writeFrame_frameOk (c : Conn) (f : Frame)
    (h : ∀ g ∈ c.delivered, frameOk g) (hf : frameOk f) :
    ∀ g ∈ (writeFrame c f).1.delivered, frameOk g := by
  rcases writeFrame_delivered c f with hd | hd <;> rw [hd]
  · exact h
  · intro g hg
    rcases List.mem_append.1 hg with hg | hg
    · exact h g hg
    · rw [List.mem_singleton.1 hg]
      exact hf

theorem step_frameOk (s : SState) (a : SAction)
    (h : ∀ g ∈ s.conn.delivered, frameOk g) :
    ∀ g ∈ (stepA s a).conn.delivered, frameOk g := by
  cases a with
  | disconnect => simpa [stepA] using h
  | waitStep =>
    cases hpc : s.waitPc with
    | start =>
      cases hwo : s.wait with
      | waitError d =>
        have hw := writeFrame_frameOk s.conn (Frame.close "Internal Server Error") h
          (by simp [frameOk])
        simpa [stepA, waitStepF, hpc, hwo] using hw
      | waitNilError => simpa [stepA, waitStepF, hpc, hwo] using h
      | statusReady code => simpa [stepA, waitStepF, hpc, hwo] using h
      | ctxTimeout =>
        have hw := writeFrame_frameOk s.conn (Frame.close "Request Timeout") h
          (by simp [frameOk])
        simpa [stepA, waitStepF, hpc, hwo] using hw
    | closeDone => simpa [stepA, waitStepF, hpc] using h
    | finished => simpa [stepA, waitStepF, hpc] using h
  | loopStep =>
    cases hpc : s.loopPc with
    | returned => simpa [stepA, loopStepF, hpc] using h
    | top =>
      cases hdc : s.doneClosed
      · rcases hr : s.reads with _ | ⟨e, rest⟩
        · simpa [stepA, loopStepF, hpc, hdc, hr] using h
        · cases e with
          | eof => simpa [stepA, loopStepF, loopReturn, hpc, hdc, hr] using h
          | readErr d =>
            have hw := writeFrame_frameOk s.conn (Frame.close "Internal Server Error") h
              (by simp [frameOk])
            simpa [stepA, loopStepF, loopReturn, hpc, hdc, hr] using hw
          | chunk outData errData => simpa [stepA, loopStepF, hpc, hdc, hr] using h
      · simpa [stepA, loopStepF, loopReturn, hpc, hdc] using h
    | sendOut outData errData =>
      cases ho : outData.isEmpty
      · have hw := writeFrame_frameOk s.conn (Frame.text outData) h (by simp [frameOk])
        rcases hwf : writeFrame s.conn (Frame.text outData) with ⟨c, ok⟩
        rw [hwf] at hw
        cases ok <;> simpa [stepA, loopStepF, loopReturn, hpc, ho, hwf] using hw
      · simpa [stepA, loopStepF, hpc, ho] using h
    | sendErr errData =>
      cases ho : errData.isEmpty
      · have hw := writeFrame_frameOk s.conn (Frame.text errData) h (by simp [frameOk])
        rcases hwf : writeFrame s.conn (Frame.text errData) with ⟨c, ok⟩
        rw [hwf] at hw
        cases ok <;> simpa [stepA, loopStepF, loopReturn, hpc, ho, hwf] using hw
      · simpa [stepA, loopStepF, hpc, ho] using h

theorem run_frameOk (s : SState) (sched : List SAction)
    (h : ∀ g ∈ s.conn.delivered, frameOk g) :
    ∀ g ∈ (runSteps s sched).conn.delivered, frameOk g := by
  induction sched generalizing s with
  | nil => exact h
  | cons a rest ih =>
    simp only [runSteps]
    exact ih (stepA s a) (step_frameOk s a h)

/-! ## Independence of the wire traffic from error details

The projection `vis` keeps everything of the concurrent state except the
log trace and the error-detail strings carried by read events and the wait
outcome; the step function is shown to factor through it, so the frames on
the wire cannot depend on any error detail. -/

inductive ReadShape where
  | chunk (outData errData : List Nat)
  | readErr
  | eof
deriving DecidableEq

def readShape : ReadEvent → ReadShape
  | ReadEvent.chunk a b => ReadShape.chunk a b
  | ReadEvent.readErr _ => ReadShape.readErr
  | ReadEvent.eof => ReadShape.eof

inductive WaitShape where
  | werror
  | wnil
  | wstatus (code : Nat)
  | wtimeout
deriving DecidableEq

def waitShape : SWaitOutcome → WaitShape
  | SWaitOutcome.waitError _ => WaitShape.werror
  | SWaitOutcome.waitNilError => WaitShape.wnil
  | SWaitOutcome.statusReady c => WaitShape.wstatus c
  | SWaitOutcome.ctxTimeout => WaitShape.wtimeout

structure Vis where
  conn : Conn
  doneClosed : Bool
  waitPc : WaitPc
  loopPc : LoopPc
  reads : List ReadShape
  wait : WaitShape
  cid : String
  calls : List RuntimeCall
deriving DecidableEq

def vis (s : SState) : Vis :=
  ⟨s.conn, s.doneClosed, s.waitPc, s.loopPc, s.reads.map readShape,
    waitShape s.wait, s.cid, s.calls⟩

theorem vis_step (s t : SState) (a : SAction) (h : vis s = vis t) :
    vis (stepA s a) = vis (stepA t a) := by
  obtain ⟨cs, dcs, wps, lps, rds, ws, cids, cls, lgs⟩ := s
  obtain ⟨ct, dct, wpt, lpt, rdt, wt, cidt, clt, lgt⟩ := t
  simp only [vis, Vis.mk.injEq] at h
  obtain ⟨h1, h2, h3, h4, h5, h6, h7, h8⟩ := h
  subst h1
  subst h2
  subst h3
  subst h4
  subst h7
  subst h8
  cases a with
  | disconnect => simp [stepA, vis, h5, h6]
  | waitStep =>
    cases wps with
    | start => cases ws <;> cases wt <;> simp_all [waitShape, stepA, waitStepF, vis]
    | closeDone => simp [stepA, waitStepF, vis, h5, h6]
    | finished => simp [stepA, waitStepF, vis, h5, h6]
  | loopStep =>
    cases lps with
    | returned => simp [stepA, loopStepF, vis, h5, h6]
    | top =>
      cases dcs with
      | true => simp [stepA, loopStepF, loopReturn, vis, h5, h6]
      | false =>
        cases rds with
        | nil =>
          cases rdt with
          | nil => simp [stepA, loopStepF, vis, h6]
          | cons e2 rest2 => simp [readShape] at h5
        | cons e rest =>
          cases rdt with
          | nil => simp [readShape] at h5
          | cons e2 rest2 =>
            simp only [List.map_cons, List.cons.injEq] at h5
            obtain ⟨he, hrest⟩ := h5
            cases e <;> cases e2 <;>
              simp_all [readShape, stepA, loopStepF, loopReturn, vis]
    | sendOut outData errData =>
      cases ho : outData.isEmpty
      · rcases hw : writeFrame cs (Frame.text outData) with ⟨c, ok⟩
        cases ok <;> simp [stepA, loopStepF, loopReturn, vis, ho, hw, h5, h6]
      · simp [stepA, loopStepF, vis, ho, h5, h6]
    | sendErr errData =>
      cases ho : errData.isEmpty
      · rcases hw : writeFrame cs (Frame.text errData) with ⟨c, ok⟩
        cases ok <;> simp [stepA, loopStepF, loopReturn, vis, ho, hw, h5, h6]
      · simp [stepA, loopStepF, vis, ho, h5, h6]

theorem vis_run (s t : SState) (sched : List SAction) (h : vis s = vis t) :
    vis (runSteps s sched) = vis (runSteps t sched) := by
  induction sched generalizing s t with
  | nil => exact h
  | cons a rest ih =>
    simp only [runSteps]
    exact ih _ _ (vis_step s t a h)

/-- Erasing every logger-only error detail from the prologue oracle. -/
def scrubStream (o : StreamOracle) : StreamOracle :=
  { o with upgradeErrDetail := "", readErrDetail := "", clientErrDetail := ""
         , createErrDetail := "", copyErrDetail := "", startErrDetail := ""
         , logsErrDetail := "" }

def scrubWait : SWaitOutcome → SWaitOutcome
  | SWaitOutcome.waitError _ => SWaitOutcome.waitError ""
  | w => w

def scrubRead : ReadEvent → ReadEvent
  | ReadEvent.readErr _ => ReadEvent.readErr ""
  | e => e

theorem waitShape_scrub (w : SWaitOutcome) : waitShape (scrubWait w) = waitShape w := by
  cases w <;> rfl

theorem readShape_scrub (e : ReadEvent) : readShape (scrubRead e) = readShape e := by
  cases e <;> rfl

theorem map_readShape_scrub (reads : List ReadEvent) :
    (reads.map scrubRead).map readShape = reads.map readShape := by
  induction reads with
  | nil => rfl
  | cons e rest ih =>
    cases e <;> simp [scrubRead, readShape, ih]

/-- Claim C8: on the streaming transport every close frame ever delivered
carries one of the three fixed status phrases (`Bad Request`,
`Internal Server Error`, `Request Timeout`), and the whole delivered frame
trace is unchanged when every underlying error detail is erased — the
close-frame content is independent of the error details, which reach the
logger only. -/
theorem stream_close_frames_sanitized :
    (∀ (o : StreamOracle) (wait : SWaitOutcome) (reads : List ReadEvent)
        (sched : List SAction),
        ∀ f ∈ (streamRun o wait reads sched).delivered, frameOk f)
    ∧ (∀ (o : StreamOracle) (wait : SWaitOutcome) (reads : List ReadEvent)
        (sched : List SAction),
        (streamRun (scrubStream o) (scrubWait wait) (reads.map scrubRead) sched).delivered
          = (streamRun o wait reads sched).delivered) := by
  constructor
  · intro o wait reads sched
    simp only [streamRun]
    repeat' split
    all_goals try (exact run_frameOk _ sched (by simp [conn0]))
    all_goals simp [closeAbort, writeFrame, conn0, frameOk]
  · intro o wait reads sched
    cases hu : o.upgradeOk with
    | false => simp [streamRun, scrubStream, hu]
    | true =>
      cases hrj : o.readJsonOk with
      | false => simp [streamRun, scrubStream, hu, hrj]
      | true =>
        cases hn : o.newClientOk with
        | false => simp [streamRun, scrubStream, hu, hrj, hn]
        | true =>
          cases hc : o.createResult with
          | none => simp [streamRun, scrubStream, hu, hrj, hn, hc]
          | some cid =>
            cases hcp : o.copyOk with
            | false =>
              simp [streamRun, scrubStream, hu, hrj, hn, hc, hcp,
                twWriteHeader_start, twWrite_start, twClose_start]
            | true =>
              cases hst : o.startOk with
              | false =>
                simp [streamRun, scrubStream, hu, hrj, hn, hc, hcp, hst,
                  twWriteHeader_start, twWrite_start, twClose_start]
              | true =>
                cases hlg : o.logsOk with
                | false =>
                  simp [streamRun, scrubStream, hu, hrj, hn, hc, hcp, hst, hlg,
                    twWriteHeader_start, twWrite_start, twClose_start]
                | true =>
                  simp only [streamRun, scrubStream, hu, hrj, hn, hc, hcp, hst, hlg,
                    twWriteHeader_start, twWrite_start, twClose_start]
                  simp only [Bool.true_eq_false, if_false]
                  exact congrArg Conn.delivered (congrArg Vis.conn
                    (vis_run _ _ sched
                      (by simp [vis, map_readShape_scrub, waitShape_scrub,
                        readShape_scrub])))

/-! ## The websocket upgrader and routing (cmd/api/execute.go, routes) -/

/-- An inbound HTTP request as far as the origin check is concerned. -/
structure HttpRequest where
  origin : Option String
  host : String
deriving DecidableEq

/-- gorilla/websocket's default same-origin policy, used only when no
`CheckOrigin` function is configured: equal Origin and Host are required. -/
def sameOriginCheck (r : HttpRequest) : Bool :=
  match r.origin with
  | none => true
  | some o => o == r.host

/-- The `websocket.Upgrader` configuration. -/
structure Upgrader where
  readBufferSize : Nat
  writeBufferSize : Nat
  checkOrigin : Option (HttpRequest → Bool)

/-- The package-level `upgrader` of cmd/api/execute.go: buffer sizes 1024
and `CheckOrigin: func(r *http.Request) bool { return true }`. -/
def upgrader : Upgrader :=
  { readBufferSize := 1024, writeBufferSize := 1024
  , checkOrigin := some (fun _ => true) }

/-- The origin gate inside `Upgrader.Upgrade`: the configured `CheckOrigin`
if present, otherwise the same-origin default; a `false` answer aborts the
upgrade with 403 Forbidden. -/
def originAllowed (u : Upgrader) (r : HttpRequest) : Bool :=
  match u.checkOrigin with
  | some f => f r
  | none => sameOriginCheck r

inductive RouteTarget where
  | executeH
  | healthcheckH
  | notFoundH
deriving DecidableEq

/-- `app.routes()`: the gorilla/mux routing table. -/
def routeOf (path : String) : RouteTarget :=
  if path = "/v1/execute" then RouteTarget.executeH
  else if path = "/v1/healthcheck" then RouteTarget.healthcheckH
  else RouteTarget.notFoundH

/-- Claim C10: `/v1/execute` is served by the execute handler, whose
upgrader's `CheckOrigin` returns true for every request — the origin gate
accepts every request, whatever its Origin header, so cross-origin
connections are never rejected on origin grounds. -/
theorem upgrader_accepts_all_origins :
    routeOf "/v1/execute" = RouteTarget.executeH
    ∧ (∀ r : HttpRequest, originAllowed upgrader r = true) := by
  constructor
  · rfl
  · intro r
    rfl

/-! ## Witnesses -/

/-- Witness for C1 at concrete inputs: a successfully created container in
the synchronous handler is removed exactly once, and in a streaming run that
has returned via end-of-stream the removal also appears exactly once. -/
theorem cleanup_exactly_once_witness :
    removeCalls (syncExecuteHandler
      ⟨true, [1], true, some "c1", "", true, "", true, "", WaitOutcome.statusReady 0,
        true, "", true, "", "ok", true, true⟩).calls
      = [RuntimeCall.containerRemove "c1" true]
    ∧ (removeCalls (streamRun
        ⟨true, "", true, "", [1], true, "", some "c2", "", true, "", true, "", true, ""⟩
        (SWaitOutcome.statusReady 0) [ReadEvent.eof] [SAction.loopStep]).calls = []
      ∨ removeCalls (streamRun
          ⟨true, "", true, "", [1], true, "", some "c2", "", true, "", true, "", true, ""⟩
          (SWaitOutcome.statusReady 0) [ReadEvent.eof] [SAction.loopStep]).calls
        = [RuntimeCall.containerRemove "c2" true]) :=
  ⟨cleanup_exactly_once.1
      ⟨true, [1], true, some "c1", "", true, "", true, "", WaitOutcome.statusReady 0,
        true, "", true, "", "ok", true, true⟩ "c1" rfl rfl rfl,
    (cleanup_exactly_once.2.2
      ⟨true, "", true, "", [1], true, "", some "c2", "", true, "", true, "", true, ""⟩
      (SWaitOutcome.statusReady 0) [ReadEvent.eof] [SAction.loopStep] "c2"
      rfl rfl rfl rfl).2⟩

/-- Witness for C6 at a concrete timeout run: after the wait goroutine's two
steps (close frame, then closing done), a further loop step delivers
nothing. -/
theorem stream_timeout_no_output_after_done_witness :
    (runSteps (runSteps
        ⟨conn0, false, WaitPc.start, LoopPc.top, [ReadEvent.chunk [49] []],
          SWaitOutcome.ctxTimeout, "c1", [], []⟩
        [SAction.waitStep, SAction.waitStep]) [SAction.loopStep]).conn.delivered
      = (runSteps
          ⟨conn0, false, WaitPc.start, LoopPc.top, [ReadEvent.chunk [49] []],
            SWaitOutcome.ctxTimeout, "c1", [], []⟩
          [SAction.waitStep, SAction.waitStep]).conn.delivered :=
  stream_timeout_no_output_after_done
    ⟨conn0, false, WaitPc.start, LoopPc.top, [ReadEvent.chunk [49] []],
      SWaitOutcome.ctxTimeout, "c1", [], []⟩
    rfl rfl rfl [SAction.waitStep, SAction.waitStep] [SAction.loopStep] (by decide)

/-- Witness for C5 at concrete inputs: with the client gone, a run delivers
nothing further, a send of a nonempty chunk makes the loop return with the
forced removal appended, and a returned loop is stable. -/
theorem stream_disconnect_detected_cleanup_witness :
    (runSteps ⟨⟨true, false, []⟩, false, WaitPc.start, LoopPc.top,
        [ReadEvent.chunk [49] []], SWaitOutcome.statusReady 0, "c1", [], []⟩
        [SAction.loopStep, SAction.loopStep]).conn.delivered
      = (⟨⟨true, false, []⟩, false, WaitPc.start, LoopPc.top,
          [ReadEvent.chunk [49] []], SWaitOutcome.statusReady 0, "c1", [], []⟩
            : SState).conn.delivered
    ∧ (loopStepF ⟨⟨true, false, []⟩, false, WaitPc.start, LoopPc.sendOut [49] [],
        [], SWaitOutcome.statusReady 0, "c1", [], []⟩).loopPc = LoopPc.returned
    ∧ (loopStepF ⟨⟨true, false, []⟩, false, WaitPc.start, LoopPc.sendOut [49] [],
        [], SWaitOutcome.statusReady 0, "c1", [], []⟩).calls
      = [] ++ [RuntimeCall.containerRemove "c1" true]
    ∧ loopStepF ⟨⟨true, false, []⟩, false, WaitPc.finished, LoopPc.returned,
        [], SWaitOutcome.statusReady 0, "c1", [], []⟩
      = ⟨⟨true, false, []⟩, false, WaitPc.finished, LoopPc.returned,
          [], SWaitOutcome.statusReady 0, "c1", [], []⟩ :=
  ⟨stream_disconnect_detected_cleanup.1
      ⟨⟨true, false, []⟩, false, WaitPc.start, LoopPc.top,
        [ReadEvent.chunk [49] []], SWaitOutcome.statusReady 0, "c1", [], []⟩
      [SAction.loopStep, SAction.loopStep] rfl,
    (stream_disconnect_detected_cleanup.2.1
      ⟨⟨true, false, []⟩, false, WaitPc.start, LoopPc.sendOut [49] [],
        [], SWaitOutcome.statusReady 0, "c1", [], []⟩ [49] [] rfl rfl rfl).1,
    (stream_disconnect_detected_cleanup.2.1
      ⟨⟨true, false, []⟩, false, WaitPc.start, LoopPc.sendOut [49] [],
        [], SWaitOutcome.statusReady 0, "c1", [], []⟩ [49] [] rfl rfl rfl).2,
    stream_disconnect_detected_cleanup.2.2
      ⟨⟨true, false, []⟩, false, WaitPc.finished, LoopPc.returned,
        [], SWaitOutcome.statusReady 0, "c1", [], []⟩ rfl⟩

/-- Witness for C8 at a concrete input: the close frame of a rejected
payload is the fixed `Bad Request` phrase, and scrubbing the error details
of a concrete failing run leaves the delivered frames unchanged. -/
theorem stream_close_frames_sanitized_witness :
    frameOk (Frame.close "Bad Request")
    ∧ (streamRun (scrubStream
        ⟨true, "", false, "secret detail", [], true, "", none, "", true, "", true, "",
          true, ""⟩)
        (scrubWait (SWaitOutcome.waitError "secret"))
        (List.map scrubRead [ReadEvent.readErr "secret"]) []).delivered
      = (streamRun
          ⟨true, "", false, "secret detail", [], true, "", none, "", true, "", true, "",
            true, ""⟩
          (SWaitOutcome.waitError "secret") [ReadEvent.readErr "secret"] []).delivered :=
  ⟨stream_close_frames_sanitized.1
      ⟨true, "", false, "x", [], true, "", none, "", true, "", true, "", true, ""⟩
      (SWaitOutcome.statusReady 0) [] [] (Frame.close "Bad Request") (by decide),
    stream_close_frames_sanitized.2
      ⟨true, "", false, "secret detail", [], true, "", none, "", true, "", true, "",
        true, ""⟩
      (SWaitOutcome.waitError "secret") [ReadEvent.readErr "secret"] []⟩
